import Mathlib

/-
Shallow embedding of `src/agent/onefuzz-task/src/tasks/config.rs` (onefuzz task
bootstrap-and-dispatch layer): the `CommonConfig` envelope, the internally
tagged `Config` union, `Config::from_file`, `CommonConfig::init_heartbeat`,
`Config::report_event` and the effectful bootstrap sequence of `Config::run`.

Modelling conventions:
- `Uuid` and `Url` values are modelled as opaque strings (their parsers live in
  external crates); `PathBuf` is a string; `Duration` is a natural number.
- JSON documents are modelled as already-parsed structured values (`Json`);
  a failed file read or a text-level JSON syntax error is collapsed into the
  absence of a document for a path (`ioError`), since every claim concerns
  documents that parse into a generic structured value.
- The build modelled is the `linux`/`windows` build, in which all fourteen
  variants of the union are compiled in.
- Effectful operations performed by `Config::run` (ipc channel creation,
  one-shot connect, handle transmission, the placeholder send, the dispatched
  runner) are given their outcomes by an explicit environment `RunEnv`;
  `Config.run` produces the trace of observable events plus an `Outcome`,
  where `Outcome.panic` models a `.unwrap()` on an `Err` value.
-/

set_option autoImplicit false

/-- A parsed JSON document (`serde_json::Value`). -/
inductive Json where
  | null
  | bool (b : Bool)
  | num (n : Int)
  | str (s : String)
  | arr (elems : List Json)
  | obj (fields : List (String × Json))

/-- Errors of the configuration loader: `ioError` covers an unreadable file or
a text-level JSON syntax failure; `schemaError` covers an unrecognized or
missing discriminant and a payload that does not match the selected variant's
expected shape. -/
inductive ConfigError where
  | ioError
  | schemaError (msg : String)
  deriving DecidableEq

/-- Modelled from the spec: `MachineIdentity` (crate `onefuzz::machine_id`, not
under `src/`) identifies the executing host by machine id, machine name and an
optional scaleset/fleet name. -/
structure MachineIdentity where
  machine_id : String
  machine_name : String
  scaleset_name : Option String
  deriving DecidableEq

/-- The shared envelope every work kind carries (`CommonConfig` in config.rs). -/
structure CommonConfig where
  job_id : String
  task_id : String
  instance_id : String
  heartbeat_queue : Option String
  instance_telemetry_key : Option String
  microsoft_telemetry_key : Option String
  logs : Option String
  setup_dir : String
  min_available_memory_mb : Nat
  machine_identity : MachineIdentity
  from_agent_to_task_endpoint : Option String
  from_task_to_agent_endpoint : Option String
  deriving DecidableEq

/-- `DEFAULT_MIN_AVAILABLE_MEMORY_MB` in config.rs. -/
def DEFAULT_MIN_AVAILABLE_MEMORY_MB : Nat := 100

/-- `default_min_available_memory_mb` in config.rs. -/
def default_min_available_memory_mb : Nat := DEFAULT_MIN_AVAILABLE_MEMORY_MB

/-- Modelled from the spec: payload of the `Coverage` variant
(`coverage::generic::Config`, not under `src/`); it embeds the common envelope
(field `common`, used by `Config::common`/`common_mut`); its further
kind-specific fields are not needed by any claim and are abstracted away. -/
structure CoverageConfig where
  common : CommonConfig
  deriving DecidableEq

/-- Modelled from the spec: payload of `DotnetCoverage`
(`coverage::dotnet::Config`); embeds the common envelope. -/
structure DotnetCoverageConfig where
  common : CommonConfig
  deriving DecidableEq

/-- Modelled from the spec: payload of `DotnetCrashReport`
(`report::dotnet::generic::Config`); embeds the common envelope. -/
structure DotnetCrashReportConfig where
  common : CommonConfig
  deriving DecidableEq

/-- Modelled from the spec: payload of `LibFuzzerDotnetFuzz`
(`fuzz::libfuzzer::dotnet::Config`); embeds the common envelope. -/
structure LibFuzzerDotnetFuzzConfig where
  common : CommonConfig
  deriving DecidableEq

/-- Modelled from the spec: payload of `LibFuzzerFuzz`
(`fuzz::libfuzzer::generic::Config`); embeds the common envelope. -/
structure LibFuzzerFuzzConfig where
  common : CommonConfig
  deriving DecidableEq

/-- Modelled from the spec: payload of `LibFuzzerReport`
(`report::libfuzzer_report::Config`); embeds the common envelope. -/
structure LibFuzzerReportConfig where
  common : CommonConfig
  deriving DecidableEq

/-- Modelled from the spec: payload of `LibFuzzerMerge`
(`merge::libfuzzer_merge::Config`); embeds the common envelope. -/
structure LibFuzzerMergeConfig where
  common : CommonConfig
  deriving DecidableEq

/-- Modelled from the spec: payload of `LibFuzzerRegression`
(`regression::libfuzzer::Config`); embeds the common envelope. -/
structure LibFuzzerRegressionConfig where
  common : CommonConfig
  deriving DecidableEq

/-- Modelled from the spec: payload of `GenericAnalysis`
(`analysis::generic::Config`); embeds the common envelope and, as used by
`Config::report_event` in config.rs, the path/name of the external analysis
tool (`analyzer_exe`). -/
structure GenericAnalysisConfig where
  common : CommonConfig
  analyzer_exe : String
  deriving DecidableEq

/-- Modelled from the spec: payload of `GenericGenerator`
(`fuzz::generator::Config`); embeds the common envelope and, as used by
`Config::report_event` in config.rs, the path/name of the external generator
tool (`generator_exe`). -/
structure GenericGeneratorConfig where
  common : CommonConfig
  generator_exe : String
  deriving DecidableEq

/-- Modelled from the spec: payload of `GenericSupervisor`
(`fuzz::supervisor::SupervisorConfig`); embeds the common envelope. -/
structure SupervisorConfig where
  common : CommonConfig
  deriving DecidableEq

/-- Modelled from the spec: payload of `GenericMerge`
(`merge::generic::Config`); embeds the common envelope. -/
structure GenericMergeConfig where
  common : CommonConfig
  deriving DecidableEq

/-- Modelled from the spec: payload of `GenericReport`
(`report::generic::Config`); embeds the common envelope. -/
structure GenericReportConfig where
  common : CommonConfig
  deriving DecidableEq

/-- Modelled from the spec: payload of `GenericRegression`
(`regression::generic::Config`); embeds the common envelope. -/
structure GenericRegressionConfig where
  common : CommonConfig
  deriving DecidableEq

/-- The closed tagged union `Config` of config.rs, with the `task_type`
discriminant (`#[serde(tag = "task_type")]`); all fourteen variants of the
linux/windows build. -/
inductive Config where
  | Coverage (c : CoverageConfig)
  | DotnetCoverage (c : DotnetCoverageConfig)
  | DotnetCrashReport (c : DotnetCrashReportConfig)
  | LibFuzzerDotnetFuzz (c : LibFuzzerDotnetFuzzConfig)
  | LibFuzzerFuzz (c : LibFuzzerFuzzConfig)
  | LibFuzzerReport (c : LibFuzzerReportConfig)
  | LibFuzzerMerge (c : LibFuzzerMergeConfig)
  | LibFuzzerRegression (c : LibFuzzerRegressionConfig)
  | GenericAnalysis (c : GenericAnalysisConfig)
  | GenericGenerator (c : GenericGeneratorConfig)
  | GenericSupervisor (c : SupervisorConfig)
  | GenericMerge (c : GenericMergeConfig)
  | GenericReport (c : GenericReportConfig)
  | GenericRegression (c : GenericRegressionConfig)
  deriving DecidableEq

namespace Config

/-- `Config::common`: the uniform accessor for the embedded envelope. -/
def common : Config → CommonConfig
  | .Coverage c => c.common
  | .DotnetCoverage c => c.common
  | .DotnetCrashReport c => c.common
  | .LibFuzzerDotnetFuzz c => c.common
  | .LibFuzzerFuzz c => c.common
  | .LibFuzzerReport c => c.common
  | .LibFuzzerMerge c => c.common
  | .LibFuzzerRegression c => c.common
  | .GenericAnalysis c => c.common
  | .GenericGenerator c => c.common
  | .GenericSupervisor c => c.common
  | .GenericMerge c => c.common
  | .GenericReport c => c.common
  | .GenericRegression c => c.common

/-- The mutation `config.common_mut().setup_dir = setup_dir` performed by
`Config::from_file`, as a functional update through `Config::common_mut`. -/
def set_setup_dir : Config → String → Config
  | .Coverage c, d => .Coverage { c with common := { c.common with setup_dir := d } }
  | .DotnetCoverage c, d => .DotnetCoverage { c with common := { c.common with setup_dir := d } }
  | .DotnetCrashReport c, d => .DotnetCrashReport { c with common := { c.common with setup_dir := d } }
  | .LibFuzzerDotnetFuzz c, d => .LibFuzzerDotnetFuzz { c with common := { c.common with setup_dir := d } }
  | .LibFuzzerFuzz c, d => .LibFuzzerFuzz { c with common := { c.common with setup_dir := d } }
  | .LibFuzzerReport c, d => .LibFuzzerReport { c with common := { c.common with setup_dir := d } }
  | .LibFuzzerMerge c, d => .LibFuzzerMerge { c with common := { c.common with setup_dir := d } }
  | .LibFuzzerRegression c, d => .LibFuzzerRegression { c with common := { c.common with setup_dir := d } }
  | .GenericAnalysis c, d => .GenericAnalysis { c with common := { c.common with setup_dir := d } }
  | .GenericGenerator c, d => .GenericGenerator { c with common := { c.common with setup_dir := d } }
  | .GenericSupervisor c, d => .GenericSupervisor { c with common := { c.common with setup_dir := d } }
  | .GenericMerge c, d => .GenericMerge { c with common := { c.common with setup_dir := d } }
  | .GenericReport c, d => .GenericReport { c with common := { c.common with setup_dir := d } }
  | .GenericRegression c, d => .GenericRegression { c with common := { c.common with setup_dir := d } }

/-- The serde variant name of each `Config` variant (the canonical
discriminant tag). -/
def tag : Config → String
  | .Coverage _ => "Coverage"
  | .DotnetCoverage _ => "DotnetCoverage"
  | .DotnetCrashReport _ => "DotnetCrashReport"
  | .LibFuzzerDotnetFuzz _ => "LibFuzzerDotnetFuzz"
  | .LibFuzzerFuzz _ => "LibFuzzerFuzz"
  | .LibFuzzerReport _ => "LibFuzzerReport"
  | .LibFuzzerMerge _ => "LibFuzzerMerge"
  | .LibFuzzerRegression _ => "LibFuzzerRegression"
  | .GenericAnalysis _ => "GenericAnalysis"
  | .GenericGenerator _ => "GenericGenerator"
  | .GenericSupervisor _ => "GenericSupervisor"
  | .GenericMerge _ => "GenericMerge"
  | .GenericReport _ => "GenericReport"
  | .GenericRegression _ => "GenericRegression"

end Config

/-- First field of an object with a given key (`serde_json` object lookup). -/
def lookupField (fields : List (String × Json)) (key : String) : Option Json :=
  (fields.find? (fun p => p.1 == key)).map (fun p => p.2)

/-- Decoding of a required string-valued field (models serde `String`/`Uuid`/
`Url` fields, the latter two abstracted to opaque strings). -/
def reqString (fields : List (String × Json)) (key : String) : Except ConfigError String :=
  match lookupField fields key with
  | some (.str s) => .ok s
  | _ => .error (.schemaError key)

/-- Decoding of an `Option<String>`-like field: missing or `null` is `none`
(serde treats a missing `Option` field as `None`). -/
def optString (fields : List (String × Json)) (key : String) : Except ConfigError (Option String) :=
  match lookupField fields key with
  | none => .ok none
  | some .null => .ok none
  | some (.str s) => .ok (some s)
  | some _ => .error (.schemaError key)

/-- Decoding of the `setup_dir` field: `#[serde(default)]` on a `PathBuf`
means a missing field yields the empty path. -/
def decodeSetupDir (fields : List (String × Json)) : Except ConfigError String :=
  match lookupField fields "setup_dir" with
  | none => .ok ""
  | some (.str s) => .ok s
  | some _ => .error (.schemaError "setup_dir")

/-- Decoding of the `min_available_memory_mb` field: a `u64` with
`#[serde(default = "default_min_available_memory_mb")]`. -/
def decodeMinAvailableMemoryMb (fields : List (String × Json)) : Except ConfigError Nat :=
  match lookupField fields "min_available_memory_mb" with
  | none => .ok default_min_available_memory_mb
  | some (.num n) =>
      if 0 ≤ n ∧ n < (2 : Int) ^ 64 then .ok n.toNat
      else .error (.schemaError "min_available_memory_mb")
  | some _ => .error (.schemaError "min_available_memory_mb")

/-- Modelled from the spec: deserialization of `MachineIdentity` (machine id,
machine name, optional scaleset name). -/
def decodeMachineIdentity (fields : List (String × Json)) : Except ConfigError MachineIdentity := do
  let machine_id ← reqString fields "machine_id"
  let machine_name ← reqString fields "machine_name"
  let scaleset_name ← optString fields "scaleset_name"
  pure { machine_id, machine_name, scaleset_name }

/-- Decoding of the required object-valued `machine_identity` field. -/
def decodeMachineIdentityField (fields : List (String × Json)) : Except ConfigError MachineIdentity :=
  match lookupField fields "machine_identity" with
  | some (.obj mi) => decodeMachineIdentity mi
  | _ => .error (.schemaError "machine_identity")

/-- The derived serde deserializer of `CommonConfig` (struct and attributes in
config.rs lines 36-67). -/
def decodeCommon (fields : List (String × Json)) : Except ConfigError CommonConfig := do
  let job_id ← reqString fields "job_id"
  let task_id ← reqString fields "task_id"
  let instance_id ← reqString fields "instance_id"
  let heartbeat_queue ← optString fields "heartbeat_queue"
  let instance_telemetry_key ← optString fields "instance_telemetry_key"
  let microsoft_telemetry_key ← optString fields "microsoft_telemetry_key"
  let logs ← optString fields "logs"
  let setup_dir ← decodeSetupDir fields
  let min_available_memory_mb ← decodeMinAvailableMemoryMb fields
  let machine_identity ← decodeMachineIdentityField fields
  let from_agent_to_task_endpoint ← optString fields "from_agent_to_task_endpoint"
  let from_task_to_agent_endpoint ← optString fields "from_task_to_agent_endpoint"
  pure { job_id, task_id, instance_id, heartbeat_queue, instance_telemetry_key,
         microsoft_telemetry_key, logs, setup_dir, min_available_memory_mb,
         machine_identity, from_agent_to_task_endpoint, from_task_to_agent_endpoint }

/-- The fourteen discriminant values of the union, in declaration order
(config.rs lines 92-139). -/
inductive TaskType where
  | Coverage
  | DotnetCoverage
  | DotnetCrashReport
  | LibFuzzerDotnetFuzz
  | LibFuzzerFuzz
  | LibFuzzerReport
  | LibFuzzerMerge
  | LibFuzzerRegression
  | GenericAnalysis
  | GenericGenerator
  | GenericSupervisor
  | GenericMerge
  | GenericReport
  | GenericRegression
  deriving DecidableEq

/-- The discriminant tags of the union: for each variant the serde variant
name and its declared `#[serde(alias = ...)]`, matched case-sensitively
(config.rs lines 92-139). -/
def matchTaskType (t : String) : Option TaskType :=
  if t = "Coverage" ∨ t = "coverage" then some .Coverage
  else if t = "DotnetCoverage" ∨ t = "dotnet_coverage" then some .DotnetCoverage
  else if t = "DotnetCrashReport" ∨ t = "dotnet_crash_report" then some .DotnetCrashReport
  else if t = "LibFuzzerDotnetFuzz" ∨ t = "libfuzzer_dotnet_fuzz" then some .LibFuzzerDotnetFuzz
  else if t = "LibFuzzerFuzz" ∨ t = "libfuzzer_fuzz" then some .LibFuzzerFuzz
  else if t = "LibFuzzerReport" ∨ t = "libfuzzer_crash_report" then some .LibFuzzerReport
  else if t = "LibFuzzerMerge" ∨ t = "libfuzzer_merge" then some .LibFuzzerMerge
  else if t = "LibFuzzerRegression" ∨ t = "libfuzzer_regression" then some .LibFuzzerRegression
  else if t = "GenericAnalysis" ∨ t = "generic_analysis" then some .GenericAnalysis
  else if t = "GenericGenerator" ∨ t = "generic_generator" then some .GenericGenerator
  else if t = "GenericSupervisor" ∨ t = "generic_supervisor" then some .GenericSupervisor
  else if t = "GenericMerge" ∨ t = "generic_merge" then some .GenericMerge
  else if t = "GenericReport" ∨ t = "generic_crash_report" then some .GenericReport
  else if t = "GenericRegression" ∨ t = "generic_regression" then some .GenericRegression
  else none

/-- Decoding of the required object-valued `common` field every payload
embeds. -/
def decodeCommonField (fields : List (String × Json)) : Except ConfigError CommonConfig :=
  match lookupField fields "common" with
  | some (.obj cf) => decodeCommon cf
  | _ => .error (.schemaError "common")

/-- Modelled from the spec: decoding of the selected variant's payload from
the document's fields (internally tagged, so the payload fields are siblings
of `task_type`); every payload embeds `CommonConfig` under the `common` field,
and `GenericAnalysis`/`GenericGenerator` additionally require their external
tool path (`analyzer_exe` / `generator_exe`). -/
def decodePayload (t : TaskType) (fields : List (String × Json)) : Except ConfigError Config := do
  let common ← decodeCommonField fields
  match t with
  | .Coverage => pure (.Coverage { common })
  | .DotnetCoverage => pure (.DotnetCoverage { common })
  | .DotnetCrashReport => pure (.DotnetCrashReport { common })
  | .LibFuzzerDotnetFuzz => pure (.LibFuzzerDotnetFuzz { common })
  | .LibFuzzerFuzz => pure (.LibFuzzerFuzz { common })
  | .LibFuzzerReport => pure (.LibFuzzerReport { common })
  | .LibFuzzerMerge => pure (.LibFuzzerMerge { common })
  | .LibFuzzerRegression => pure (.LibFuzzerRegression { common })
  | .GenericAnalysis => do
      let analyzer_exe ← reqString fields "analyzer_exe"
      pure (.GenericAnalysis { common, analyzer_exe })
  | .GenericGenerator => do
      let generator_exe ← reqString fields "generator_exe"
      pure (.GenericGenerator { common, generator_exe })
  | .GenericSupervisor => pure (.GenericSupervisor { common })
  | .GenericMerge => pure (.GenericMerge { common })
  | .GenericReport => pure (.GenericReport { common })
  | .GenericRegression => pure (.GenericRegression { common })

/-- The derived internally tagged deserializer of `Config`
(`#[serde(tag = "task_type")]`): the document must be an object, its
`task_type` field a string matching a variant tag or alias, and the remaining
fields the selected variant's payload. -/
def decodeConfig (j : Json) : Except ConfigError Config :=
  match j with
  | .obj fields =>
      match lookupField fields "task_type" with
      | some (.str t) =>
          match matchTaskType t with
          | some v => decodePayload v fields
          | none => .error (.schemaError "task_type")
      | _ => .error (.schemaError "task_type")
  | _ => .error (.schemaError "expected object")

/-- `Config::from_file(path, setup_dir)` (config.rs lines 142-151): read and
parse the document at `path` (the document store `fs` models
`std::fs::read_to_string` composed with `serde_json::from_str`), re-interpret
the generic value against the union, then unconditionally overwrite the
embedded envelope's `setup_dir` with the caller-supplied value. -/
def Config.from_file (fs : String → Option Json) (path : String) (setup_dir : String) :
    Except ConfigError Config :=
  match fs path with
  | none => .error .ioError
  | some j =>
      match decodeConfig j with
      | .error e => .error e
      | .ok config => .ok (config.set_setup_dir setup_dir)

/-- The handle ends of a unidirectional ipc channel: the producer
(`IpcSender`) and the consumer (`IpcReceiver`). -/
inductive Handle where
  | producer
  | consumer
  deriving DecidableEq

/-- The two handshake directions of §4.3. -/
inductive Direction where
  | agentToTask
  | taskToAgent
  deriving DecidableEq

/-- Observable events of the bootstrap sequence of `Config::run`. -/
inductive RunEvent where
  /-- `telemetry::set_property(...)` for one property name. -/
  | setProperty (name : String)
  /-- `ipc::channel()` succeeded for one direction. -/
  | createChannel (d : Direction)
  /-- `IpcSender::connect(endpoint)` succeeded. -/
  | connect (endpoint : String)
  /-- one end of the fresh channel was transmitted over the one-shot
  connection of direction `d`. -/
  | sentHandle (d : Direction) (h : Handle)
  /-- the other end of the fresh channel of direction `d` stays in this
  process. -/
  | retainedHandle (d : Direction) (h : Handle)
  /-- a message was sent on the fresh channel of direction `d`. -/
  | sentMessage (d : Direction) (msg : String)
  /-- the `task_start` telemetry event of `Config::report_event`, with its
  `EventData::Type` string and optional `EventData::ToolName`. -/
  | taskStart (eventType : String) (toolName : Option String)
  /-- the runner of the variant with the given serde tag was invoked. -/
  | invokeRunner (tag : String)
  deriving DecidableEq

namespace RunEvent

/-- Whether an event is a message send on a handshake channel. -/
def isSentMessage : RunEvent → Bool
  | .sentMessage _ _ => true
  | _ => false

/-- Whether an event is the `task_start` telemetry event. -/
def isTaskStart : RunEvent → Bool
  | .taskStart _ _ => true
  | _ => false

/-- Whether an event is a runner invocation. -/
def isInvokeRunner : RunEvent → Bool
  | .invokeRunner _ => true
  | _ => false

/-- Whether an event belongs to handshake establishment (channel creation,
connect, handle transfer or message send). -/
def isHandshakeEvent : RunEvent → Bool
  | .createChannel _ => true
  | .connect _ => true
  | .sentHandle _ _ => true
  | .retainedHandle _ _ => true
  | .sentMessage _ _ => true
  | _ => false

/-- Whether an event concerns the agent-to-task direction. -/
def isAgentToTaskEvent : RunEvent → Bool
  | .createChannel .agentToTask => true
  | .connect _ => false
  | .sentHandle .agentToTask _ => true
  | .retainedHandle .agentToTask _ => true
  | .sentMessage .agentToTask _ => true
  | _ => false

end RunEvent

/-- Terminal outcome of `Config::run`: `ok`/`err` are the `Result` the caller
receives from the dispatched runner, `panic` models `.unwrap()` on an `Err`
value during handshake establishment (a fatal abort of startup carrying the
originating error's description). -/
inductive Outcome where
  | ok
  | err (msg : String)
  | panic (msg : String)
  deriving DecidableEq

deriving instance DecidableEq for Except

/-- The outcomes the process environment gives to the effectful operations of
`Config::run`: ipc channel creation, one-shot connect and handle transmission
for each configured direction, the placeholder send on the task-to-agent
channel, and the dispatched runner's terminal result. -/
structure RunEnv where
  agentChannel : Except String Unit
  agentConnect : Except String Unit
  agentSendHandle : Except String Unit
  taskChannel : Except String Unit
  taskConnect : Except String Unit
  taskSendHandle : Except String Unit
  placeholderSend : Except String Unit
  runnerResult : Except String Unit
  deriving DecidableEq

/-- The `telemetry::set_property` calls at the top of `Config::run`
(config.rs lines 229-240): job id, task id, machine id, build version,
instance id, the fixed role marker, and the scaleset name when present. -/
def telemetryProps (c : CommonConfig) : List RunEvent :=
  [.setProperty "job_id", .setProperty "task_id", .setProperty "machine_id",
   .setProperty "version", .setProperty "instance_id", .setProperty "role"] ++
  (match c.machine_identity.scaleset_name with
   | some _ => [.setProperty "scaleset_id"]
   | none => [])

/-- One direction of handshake establishment: `ipc::channel().unwrap()`, then
`IpcSender::connect(endpoint).unwrap()`, then sending one end of the fresh
channel over the one-shot connection with `.unwrap()`; `sent` is the handle
transmitted to the parent and `kept` the handle this process retains. Returns
the events that occurred and, on failure, the panic message. -/
def handshakeStep (d : Direction) (endpoint : String)
    (channel conn sendHandle : Except String Unit) (sent kept : Handle) :
    List RunEvent × Option String :=
  match channel with
  | .error e => ([], some e)
  | .ok _ =>
      match conn with
      | .error e => ([.createChannel d], some e)
      | .ok _ =>
          match sendHandle with
          | .error e => ([.createChannel d, .connect endpoint], some e)
          | .ok _ =>
              ([.createChannel d, .connect endpoint, .sentHandle d sent,
                .retainedHandle d kept], none)

/-- The event-type string of the `task_start` event, from the `match` in
`Config::report_event` (config.rs lines 196-213). -/
def Config.eventType : Config → String
  | .Coverage _ => "coverage"
  | .DotnetCoverage _ => "dotnet_coverage"
  | .DotnetCrashReport _ => "dotnet_crash_report"
  | .LibFuzzerDotnetFuzz _ => "libfuzzer_fuzz"
  | .LibFuzzerFuzz _ => "libfuzzer_fuzz"
  | .LibFuzzerMerge _ => "libfuzzer_merge"
  | .LibFuzzerReport _ => "libfuzzer_crash_report"
  | .LibFuzzerRegression _ => "libfuzzer_regression"
  | .GenericAnalysis _ => "generic_analysis"
  | .GenericMerge _ => "generic_merge"
  | .GenericReport _ => "generic_crash_report"
  | .GenericSupervisor _ => "generic_supervisor"
  | .GenericGenerator _ => "generic_generator"
  | .GenericRegression _ => "generic_regression"

/-- The optional `EventData::ToolName` attached to the `task_start` event:
`generator_exe` for `GenericGenerator`, `analyzer_exe` for `GenericAnalysis`,
nothing for every other variant (config.rs lines 215-225). -/
def Config.toolName : Config → Option String
  | .GenericGenerator c => some c.generator_exe
  | .GenericAnalysis c => some c.analyzer_exe
  | _ => none

/-- `Config::report_event`: the single `task_start` telemetry event. -/
def Config.report_event (cfg : Config) : RunEvent :=
  .taskStart cfg.eventType cfg.toolName

/-- The agent-to-task half of handshake establishment (config.rs lines
242-250): performed only when `from_agent_to_task_endpoint` is present; the
producer handle (`agent_sender`) is transmitted and the consumer handle
(`receive_from_agent`) retained. -/
def agentPhase (c : CommonConfig) (env : RunEnv) : List RunEvent × Option String :=
  match c.from_agent_to_task_endpoint with
  | none => ([], none)
  | some endpoint =>
      handshakeStep .agentToTask endpoint env.agentChannel env.agentConnect
        env.agentSendHandle .producer .consumer

/-- The task-to-agent half of handshake establishment (config.rs lines
252-262): performed only when `from_task_to_agent_endpoint` is present; the
consumer handle (`receive_from_task`) is transmitted and the producer handle
(`task_sender`) retained, after which the fixed placeholder message
`"hiiiii"` is sent on the fresh channel, the send's `Result` being
discarded. -/
def taskPhase (c : CommonConfig) (env : RunEnv) : List RunEvent × Option String :=
  match c.from_task_to_agent_endpoint with
  | none => ([], none)
  | some endpoint =>
      match handshakeStep .taskToAgent endpoint env.taskChannel env.taskConnect
          env.taskSendHandle .consumer .producer with
      | (evs, some e) => (evs, some e)
      | (evs, none) => (evs ++ [.sentMessage .taskToAgent "hiiiii"], none)

/-- The `Result` the caller receives from the dispatched runner, propagated
unchanged (config.rs lines 267-317). -/
def runnerOutcome (env : RunEnv) : Outcome :=
  match env.runnerResult with
  | .ok _ => .ok
  | .error e => .err e

/-- `Config::run` (config.rs lines 228-318) as a trace semantics: set the
telemetry properties; establish the agent-to-task handshake, then the
task-to-agent handshake; then emit the `task_start` event, invoke the
selected runner and propagate its outcome unchanged. Every `.unwrap()`
failure aborts with `Outcome.panic`. -/
def Config.run (cfg : Config) (env : RunEnv) : List RunEvent × Outcome :=
  match agentPhase cfg.common env with
  | (evs1, some e) => (telemetryProps cfg.common ++ evs1, .panic e)
  | (evs1, none) =>
      match taskPhase cfg.common env with
      | (evs2, some e) => (telemetryProps cfg.common ++ evs1 ++ evs2, .panic e)
      | (evs2, none) =>
          (telemetryProps cfg.common ++ evs1 ++ evs2 ++
            [cfg.report_event, .invokeRunner cfg.tag], runnerOutcome env)

/-- A heartbeat client as constructed by `init_task_heartbeat` (crate-external;
modelled from the spec: bound to the queue, the task and job identifiers, the
machine identity, with the optional initial delay passed through). -/
structure TaskHeartbeatClient where
  queue_url : String
  task_id : String
  job_id : String
  initial_delay : Option Nat
  machine_id : String
  machine_name : String
  deriving DecidableEq

/-- `CommonConfig::init_heartbeat` (config.rs lines 70-89): when
`heartbeat_queue` is absent return `Ok(None)`; when present call
`init_task_heartbeat` with the queue url, task id, job id, initial delay,
machine id and machine name, propagating its error with `?` and wrapping its
client in `Some`. The external `init_task_heartbeat` is a parameter
`init_task_heartbeat` of the model. -/
def CommonConfig.init_heartbeat (c : CommonConfig) (initial_delay : Option Nat)
    (init_task_heartbeat :
      String → String → String → Option Nat → String → String →
        Except String TaskHeartbeatClient) :
    Except String (Option TaskHeartbeatClient) :=
  match c.heartbeat_queue with
  | some url =>
      match init_task_heartbeat url c.task_id c.job_id initial_delay
          c.machine_identity.machine_id c.machine_identity.machine_name with
      | .error e => .error e
      | .ok hb => .ok (some hb)
  | none => .ok none

@[simp]
lemma except_ok_bind {ε α β : Type} (a : α) (g : α → Except ε β) :
    (Except.ok a >>= g : Except ε β) = g a := rfl

@[simp]
lemma except_error_bind {ε α β : Type} (e : ε) (g : α → Except ε β) :
    (Except.error e >>= g : Except ε β) = .error e := rfl

lemma except_bind_ok {ε α β : Type} {x : Except ε α} {g : α → Except ε β} {c : β}
    (h : (x >>= g) = .ok c) : ∃ a, x = .ok a ∧ g a = .ok c := by
  cases x with
  | error e => simp at h
  | ok a => exact ⟨a, rfl, by simpa using h⟩

lemma except_bind_schema {α β : Type} {x : Except ConfigError α}
    {g : α → Except ConfigError β}
    (hx : ∀ e, x = .error e → ∃ m, e = .schemaError m)
    (hg : ∀ a e, g a = .error e → ∃ m, e = .schemaError m) :
    ∀ e, (x >>= g) = .error e → ∃ m, e = .schemaError m := by
  intro e h
  cases x with
  | error e0 =>
      simp at h
      exact h ▸ hx e0 rfl
  | ok a => exact hg a e (by simpa using h)

lemma set_setup_dir_common (cfg : Config) (d : String) :
    (cfg.set_setup_dir d).common = { cfg.common with setup_dir := d } := by
  cases cfg <;> rfl

/-- Claim C1: for every document that parses successfully, the configuration
returned by `Config::from_file(path, setup_dir)` has its embedded
`CommonConfig`'s `setup_dir` equal to the caller-supplied `setup_dir`
argument, regardless of the document's `setup_dir` field, for every variant
of the union. -/
theorem from_file_setup_dir_is_override (fs : String → Option Json)
    (path setup_dir : String) (cfg : Config)
    (h : Config.from_file fs path setup_dir = .ok cfg) :
    cfg.common.setup_dir = setup_dir := by
  unfold Config.from_file at h
  split at h
  · simp at h
  · split at h
    · simp at h
    · simp only [Except.ok.injEq] at h
      rw [← h, set_setup_dir_common]

/-- Fields of a well-formed common envelope, with a `setup_dir` in the
document that differs from the caller-supplied override and no
`min_available_memory_mb` field. -/
def exCommonFields : List (String × Json) :=
  [("job_id", .str "j-1"),
   ("task_id", .str "t-1"),
   ("instance_id", .str "i-1"),
   ("setup_dir", .str "/from-document"),
   ("machine_identity", .obj
     [("machine_id", .str "m-1"), ("machine_name", .str "host-1")])]

/-- Fields of a well-formed `generic_merge` document. -/
def exDocFields : List (String × Json) :=
  [("task_type", .str "generic_merge"), ("common", .obj exCommonFields)]

/-- Example document store: the `generic_merge` document at `config.json`. -/
def exDocJson : Json := .obj exDocFields

def exFs : String → Option Json :=
  fun p => if p = "config.json" then some exDocJson else none

/-- The configuration `exFs`'s document loads to, with the override applied. -/
def exLoadedCommon : CommonConfig :=
  { job_id := "j-1", task_id := "t-1", instance_id := "i-1",
    heartbeat_queue := none, instance_telemetry_key := none,
    microsoft_telemetry_key := none, logs := none, setup_dir := "/override",
    min_available_memory_mb := 100,
    machine_identity := { machine_id := "m-1", machine_name := "host-1",
                          scaleset_name := none },
    from_agent_to_task_endpoint := none, from_task_to_agent_endpoint := none }

def exLoadedConfig : Config := .GenericMerge { common := exLoadedCommon }

/-- Witness for claim C1 at a concrete document: the document's
`/from-document` is discarded in favour of the override `/override`. -/
theorem from_file_setup_dir_is_override_witness :
    Config.from_file exFs "config.json" "/override" = .ok exLoadedConfig ∧
    exLoadedConfig.common.setup_dir = "/override" :=
  ⟨by decide,
   from_file_setup_dir_is_override exFs "config.json" "/override" exLoadedConfig
     (by decide)⟩

@[simp]
lemma except_pure_eq {ε α : Type} (a : α) : (pure a : Except ε α) = .ok a := rfl

lemma schemaError_exists {e : ConfigError} {s : String}
    (h : ConfigError.schemaError s = e) : ∃ m, e = .schemaError m := ⟨s, h.symm⟩

lemma schemaError_exists_err {α : Type} {e : ConfigError} {s : String}
    (h : (Except.error (ConfigError.schemaError s) : Except ConfigError α) = .error e) :
    ∃ m, e = .schemaError m := ⟨s, (Except.error.inj h).symm⟩

lemma reqString_error_schema (fields : List (String × Json)) (k : String) :
    ∀ e, reqString fields k = .error e → ∃ m, e = .schemaError m := by
  intro e h
  unfold reqString at h
  split at h <;> first | exact schemaError_exists_err h | simp_all

lemma optString_error_schema (fields : List (String × Json)) (k : String) :
    ∀ e, optString fields k = .error e → ∃ m, e = .schemaError m := by
  intro e h
  unfold optString at h
  split at h <;> first | exact schemaError_exists_err h | simp_all

lemma decodeSetupDir_error_schema (fields : List (String × Json)) :
    ∀ e, decodeSetupDir fields = .error e → ∃ m, e = .schemaError m := by
  intro e h
  unfold decodeSetupDir at h
  split at h <;> first | exact schemaError_exists_err h | simp_all

lemma decodeMinAvailableMemoryMb_error_schema (fields : List (String × Json)) :
    ∀ e, decodeMinAvailableMemoryMb fields = .error e → ∃ m, e = .schemaError m := by
  intro e h
  unfold decodeMinAvailableMemoryMb at h
  split at h <;> first
    | exact schemaError_exists_err h
    | (split at h <;> first | exact schemaError_exists_err h | simp_all)
    | simp_all

lemma decodeMachineIdentity_error_schema (fields : List (String × Json)) :
    ∀ e, decodeMachineIdentity fields = .error e → ∃ m, e = .schemaError m := by
  unfold decodeMachineIdentity
  exact except_bind_schema (reqString_error_schema fields "machine_id") fun a =>
    except_bind_schema (reqString_error_schema fields "machine_name") fun b =>
      except_bind_schema (optString_error_schema fields "scaleset_name") fun c e h => by
        simp at h

lemma decodeMachineIdentityField_error_schema (fields : List (String × Json)) :
    ∀ e, decodeMachineIdentityField fields = .error e → ∃ m, e = .schemaError m := by
  intro e h
  unfold decodeMachineIdentityField at h
  split at h
  · exact decodeMachineIdentity_error_schema _ e h
  · exact schemaError_exists_err h

lemma decodeCommon_error_schema (fields : List (String × Json)) :
    ∀ e, decodeCommon fields = .error e → ∃ m, e = .schemaError m := by
  unfold decodeCommon
  exact except_bind_schema (reqString_error_schema fields "job_id") fun a1 =>
    except_bind_schema (reqString_error_schema fields "task_id") fun a2 =>
    except_bind_schema (reqString_error_schema fields "instance_id") fun a3 =>
    except_bind_schema (optString_error_schema fields "heartbeat_queue") fun a4 =>
    except_bind_schema (optString_error_schema fields "instance_telemetry_key") fun a5 =>
    except_bind_schema (optString_error_schema fields "microsoft_telemetry_key") fun a6 =>
    except_bind_schema (optString_error_schema fields "logs") fun a7 =>
    except_bind_schema (decodeSetupDir_error_schema fields) fun a8 =>
    except_bind_schema (decodeMinAvailableMemoryMb_error_schema fields) fun a9 =>
    except_bind_schema (decodeMachineIdentityField_error_schema fields) fun a10 =>
    except_bind_schema (optString_error_schema fields "from_agent_to_task_endpoint") fun a11 =>
    except_bind_schema (optString_error_schema fields "from_task_to_agent_endpoint") fun a12 e h => by
      simp at h

lemma decodeCommonField_error_schema (fields : List (String × Json)) :
    ∀ e, decodeCommonField fields = .error e → ∃ m, e = .schemaError m := by
  intro e h
  unfold decodeCommonField at h
  split at h
  · exact decodeCommon_error_schema _ e h
  · exact schemaError_exists_err h

lemma decodePayload_error_schema (t : TaskType) (fields : List (String × Json)) :
    ∀ e, decodePayload t fields = .error e → ∃ m, e = .schemaError m := by
  unfold decodePayload
  refine except_bind_schema (decodeCommonField_error_schema fields) fun common e h => ?_
  cases t <;> first
    | exact except_bind_schema (reqString_error_schema fields "analyzer_exe")
        (fun a e h => by simp at h) e h
    | exact except_bind_schema (reqString_error_schema fields "generator_exe")
        (fun a e h => by simp at h) e h
    | simp_all

lemma decodeConfig_error_schema (j : Json) :
    ∀ e, decodeConfig j = .error e → ∃ m, e = .schemaError m := by
  intro e h
  unfold decodeConfig at h
  split at h
  · split at h
    · split at h
      · exact decodePayload_error_schema _ _ e h
      · exact schemaError_exists_err h
    · exact schemaError_exists_err h
  · exact schemaError_exists_err h

/-- Whether a document carries a recognized discriminant: it is an object
whose `task_type` field is a string matching some variant's tag or alias. -/
def discriminantRecognized (j : Json) : Bool :=
  match j with
  | .obj fields =>
      match lookupField fields "task_type" with
      | some (.str t) => (matchTaskType t).isSome
      | _ => false
  | _ => false

lemma discriminantRecognized_obj (fields : List (String × Json)) :
    discriminantRecognized (.obj fields) =
      (match lookupField fields "task_type" with
       | some (.str t) => (matchTaskType t).isSome
       | _ => false) := rfl

/-- Claim C6: for every document whose `task_type` discriminant is missing or
matches (case-sensitively) no variant's tag or declared alias, and for every
document the re-interpretation of which against the union fails (including a
payload not matching the selected variant's expected shape),
`Config::from_file` fails with a schema error and constructs no
`Configuration` value. -/
theorem bad_document_yields_schema_error (fs : String → Option Json)
    (path sd : String) (j : Json) (hfs : fs path = some j) :
    (discriminantRecognized j = false →
      ∃ m, Config.from_file fs path sd = .error (.schemaError m)) ∧
    (∀ e, decodeConfig j = .error e →
      (∃ m, e = .schemaError m) ∧ Config.from_file fs path sd = .error e) := by
  have hprop : ∀ e, decodeConfig j = .error e →
      Config.from_file fs path sd = .error e := by
    intro e he
    unfold Config.from_file
    rw [hfs]
    simp [he]
  constructor
  · intro hbad
    have hdec : ∃ m, decodeConfig j = .error (.schemaError m) := by
      unfold decodeConfig
      cases j with
      | obj fields =>
          rw [discriminantRecognized_obj] at hbad
          cases hl : lookupField fields "task_type" with
          | none => simp [hl]
          | some v =>
              rw [hl] at hbad
              cases v with
              | str t =>
                  replace hbad : (matchTaskType t).isSome = false := hbad
                  cases hm : matchTaskType t with
                  | none => simp [hl, hm]
                  | some tt => rw [hm] at hbad; simp at hbad
              | null => simp [hl]
              | bool b => simp [hl]
              | num n => simp [hl]
              | arr xs => simp [hl]
              | obj f2 => simp [hl]
      | null => simp
      | bool b => simp
      | num n => simp
      | str s => simp
      | arr xs => simp
    obtain ⟨m, hm⟩ := hdec
    exact ⟨m, hprop _ hm⟩
  · intro e he
    exact ⟨decodeConfig_error_schema j e he, hprop e he⟩

/-- Example document whose `task_type` matches no variant tag or alias. -/
def exBadDocJson : Json := .obj [("task_type", .str "bogus_type")]

def exBadFs : String → Option Json :=
  fun p => if p = "bad.json" then some exBadDocJson else none

/-- Witness for claim C6 at a concrete document with an unrecognized
discriminant: loading fails with a schema error. -/
theorem bad_document_yields_schema_error_witness :
    discriminantRecognized exBadDocJson = false ∧
    (∃ m, Config.from_file exBadFs "bad.json" "/s" = .error (.schemaError m)) :=
  ⟨by decide,
   (bad_document_yields_schema_error exBadFs "bad.json" "/s" exBadDocJson
     rfl).1 (by decide)⟩

lemma decodeCommonField_ok {fields : List (String × Json)} {c : CommonConfig}
    (h : decodeCommonField fields = .ok c) :
    ∃ cf, lookupField fields "common" = some (.obj cf) ∧ decodeCommon cf = .ok c := by
  unfold decodeCommonField at h
  split at h
  · rename_i cf heq
    exact ⟨cf, heq, h⟩
  · simp at h

lemma decodePayload_ok_common {t : TaskType} {fields : List (String × Json)} {c : Config}
    (h : decodePayload t fields = .ok c) :
    ∃ cf, lookupField fields "common" = some (.obj cf) ∧ decodeCommon cf = .ok c.common := by
  unfold decodePayload at h
  obtain ⟨common, hcf, hrest⟩ := except_bind_ok h
  obtain ⟨cf, hl, hdc⟩ := decodeCommonField_ok hcf
  refine ⟨cf, hl, ?_⟩
  cases t <;>
    first
      | (obtain ⟨a, ha, hp⟩ := except_bind_ok hrest;
         simp only [except_pure_eq, Except.ok.injEq] at hp;
         subst hp; exact hdc)
      | (simp only [except_pure_eq, Except.ok.injEq] at hrest;
         subst hrest; exact hdc)

lemma decodeConfig_ok_structure {j : Json} {c : Config} (h : decodeConfig j = .ok c) :
    ∃ fields cf, j = .obj fields ∧ lookupField fields "common" = some (.obj cf) ∧
      decodeCommon cf = .ok c.common := by
  unfold decodeConfig at h
  split at h
  · split at h
    · split at h
      · obtain ⟨cf, hl, hdc⟩ := decodePayload_ok_common h
        exact ⟨_, cf, rfl, hl, hdc⟩
      · simp at h
    · simp at h
  · simp at h

lemma from_file_some (fs : String → Option Json) (path sd : String) (j : Json)
    (hfs : fs path = some j) :
    Config.from_file fs path sd =
      (match decodeConfig j with
       | .error e => .error e
       | .ok config => .ok (config.set_setup_dir sd)) := by
  unfold Config.from_file
  rw [hfs]

lemma decodeMin_absent (fields : List (String × Json))
    (h : lookupField fields "min_available_memory_mb" = none) :
    decodeMinAvailableMemoryMb fields = .ok default_min_available_memory_mb := by
  unfold decodeMinAvailableMemoryMb
  rw [h]

lemma decodeMin_num (fields : List (String × Json)) (n : Int)
    (h : lookupField fields "min_available_memory_mb" = some (.num n)) :
    decodeMinAvailableMemoryMb fields =
      (if 0 ≤ n ∧ n < (2 : Int) ^ 64 then .ok n.toNat
       else .error (.schemaError "min_available_memory_mb")) := by
  unfold decodeMinAvailableMemoryMb
  rw [h]

lemma decodeCommon_ok_min {fields : List (String × Json)} {c : CommonConfig}
    (h : decodeCommon fields = .ok c) :
    decodeMinAvailableMemoryMb fields = .ok c.min_available_memory_mb := by
  unfold decodeCommon at h
  obtain ⟨a1, h1, h⟩ := except_bind_ok h
  obtain ⟨a2, h2, h⟩ := except_bind_ok h
  obtain ⟨a3, h3, h⟩ := except_bind_ok h
  obtain ⟨a4, h4, h⟩ := except_bind_ok h
  obtain ⟨a5, h5, h⟩ := except_bind_ok h
  obtain ⟨a6, h6, h⟩ := except_bind_ok h
  obtain ⟨a7, h7, h⟩ := except_bind_ok h
  obtain ⟨a8, h8, h⟩ := except_bind_ok h
  obtain ⟨a9, h9, h⟩ := except_bind_ok h
  obtain ⟨a10, h10, h⟩ := except_bind_ok h
  obtain ⟨a11, h11, h⟩ := except_bind_ok h
  obtain ⟨a12, h12, h⟩ := except_bind_ok h
  simp only [except_pure_eq, Except.ok.injEq] at h
  rw [← h]
  exact h9

/-- Claim C7: for every successfully loaded configuration, the envelope's
`min_available_memory_mb` equals 100 (the default) when the field was absent
from the document's common object, and equals the document's value verbatim,
including 0, when present. -/
theorem min_available_memory_default_and_verbatim (fs : String → Option Json)
    (path sd : String) (j : Json) (fields cf : List (String × Json)) (cfg : Config)
    (hfs : fs path = some j)
    (hj : j = .obj fields)
    (hcf : lookupField fields "common" = some (.obj cf))
    (h : Config.from_file fs path sd = .ok cfg) :
    (lookupField cf "min_available_memory_mb" = none →
      cfg.common.min_available_memory_mb = 100) ∧
    (∀ n : Int, lookupField cf "min_available_memory_mb" = some (.num n) →
      (cfg.common.min_available_memory_mb : Int) = n) := by
  rw [from_file_some fs path sd j hfs] at h
  have hdec : ∃ c0, decodeConfig j = .ok c0 ∧ cfg = c0.set_setup_dir sd := by
    split at h
    · simp at h
    · rename_i c0 hd
      exact ⟨c0, hd, by simpa using h.symm⟩
  obtain ⟨c0, hd, rfl⟩ := hdec
  obtain ⟨fields2, cf2, hj2, hcf2, hdc⟩ := decodeConfig_ok_structure hd
  rw [hj] at hj2
  obtain rfl : fields = fields2 := by simpa using hj2
  rw [hcf] at hcf2
  obtain rfl : cf = cf2 := by simpa using hcf2
  have hmin := decodeCommon_ok_min hdc
  have hsame : (c0.set_setup_dir sd).common.min_available_memory_mb =
      c0.common.min_available_memory_mb := by
    rw [set_setup_dir_common]
  constructor
  · intro habsent
    rw [decodeMin_absent cf habsent] at hmin
    simp only [Except.ok.injEq] at hmin
    rw [hsame, ← hmin]
    rfl
  · intro n hpresent
    rw [decodeMin_num cf n hpresent] at hmin
    split at hmin
    · rename_i hrange
      simp only [Except.ok.injEq] at hmin
      rw [hsame, ← hmin, Int.toNat_of_nonneg hrange.1]
    · simp at hmin

/-- Fields of a common envelope that sets `min_available_memory_mb` to 0. -/
def exMinZeroCommonFields : List (String × Json) :=
  [("job_id", .str "j-2"),
   ("task_id", .str "t-2"),
   ("instance_id", .str "i-2"),
   ("min_available_memory_mb", .num 0),
   ("machine_identity", .obj
     [("machine_id", .str "m-2"), ("machine_name", .str "host-2")])]

/-- Fields of a `libfuzzer_fuzz` document whose envelope sets
`min_available_memory_mb` to 0. -/
def exMinZeroDocFields : List (String × Json) :=
  [("task_type", .str "libfuzzer_fuzz"), ("common", .obj exMinZeroCommonFields)]

def exMinZeroDocJson : Json := .obj exMinZeroDocFields

def exFs2 : String → Option Json :=
  fun p => if p = "zero.json" then some exMinZeroDocJson else none

/-- The configuration `exFs2`'s document loads to. -/
def exMinZeroConfig : Config :=
  .LibFuzzerFuzz { common :=
    { job_id := "j-2", task_id := "t-2", instance_id := "i-2",
      heartbeat_queue := none, instance_telemetry_key := none,
      microsoft_telemetry_key := none, logs := none, setup_dir := "/s2",
      min_available_memory_mb := 0,
      machine_identity := { machine_id := "m-2", machine_name := "host-2",
                            scaleset_name := none },
      from_agent_to_task_endpoint := none, from_task_to_agent_endpoint := none } }

/-- Witness for claim C7 at two concrete documents: the field absent yields
100, the field present as 0 is preserved verbatim. -/
theorem min_available_memory_default_and_verbatim_witness :
    exLoadedConfig.common.min_available_memory_mb = 100 ∧
    (exMinZeroConfig.common.min_available_memory_mb : Int) = 0 :=
  ⟨(min_available_memory_default_and_verbatim exFs "config.json" "/override" exDocJson
      exDocFields exCommonFields exLoadedConfig rfl rfl rfl (by decide)).1 rfl,
   (min_available_memory_default_and_verbatim exFs2 "zero.json" "/s2" exMinZeroDocJson
      exMinZeroDocFields exMinZeroCommonFields exMinZeroConfig rfl rfl rfl (by decide)).2
      0 rfl⟩

/-- Claim C8: `CommonConfig::init_heartbeat` returns success with no client
when `heartbeat_queue` is absent; when present it makes exactly one call to
the external client constructor, bound to the queue url, the task and job
identifiers and the machine identity, passing the optional initial delay
through, and its result is surfaced unchanged (a constructed client wrapped
in `Some`, a construction failure as the error, with no retry). -/
theorem init_heartbeat_behaviour (c : CommonConfig) (d : Option Nat)
    (f : String → String → String → Option Nat → String → String →
      Except String TaskHeartbeatClient) :
    (c.heartbeat_queue = none → c.init_heartbeat d f = .ok none) ∧
    (∀ url, c.heartbeat_queue = some url →
      c.init_heartbeat d f =
        (f url c.task_id c.job_id d c.machine_identity.machine_id
          c.machine_identity.machine_name).map some) := by
  constructor
  · intro h
    unfold CommonConfig.init_heartbeat
    rw [h]
  · intro url h
    unfold CommonConfig.init_heartbeat
    rw [h]
    cases hf : f url c.task_id c.job_id d c.machine_identity.machine_id
        c.machine_identity.machine_name <;>
      simp [hf, Except.map]

/-- The external heartbeat client constructor, modelled from the spec as the
canonical constructor recording its arguments. -/
def exHeartbeatInit : String → String → String → Option Nat → String → String →
    Except String TaskHeartbeatClient :=
  fun url task job delay mid mname =>
    .ok { queue_url := url, task_id := task, job_id := job,
          initial_delay := delay, machine_id := mid, machine_name := mname }

def exCommonHb : CommonConfig := { exLoadedCommon with heartbeat_queue := some "queue-url" }

/-- Witness for claim C8: with a queue configured the client is bound to the
queue, identifiers, identity and delay; with no queue the result is
`Ok(None)`. -/
theorem init_heartbeat_behaviour_witness :
    exCommonHb.init_heartbeat (some 5) exHeartbeatInit =
      .ok (some { queue_url := "queue-url", task_id := "t-1", job_id := "j-1",
                  initial_delay := some 5, machine_id := "m-1",
                  machine_name := "host-1" }) ∧
    exLoadedCommon.init_heartbeat none exHeartbeatInit = .ok none :=
  ⟨((init_heartbeat_behaviour exCommonHb (some 5) exHeartbeatInit).2 "queue-url"
      rfl).trans (by decide),
   (init_heartbeat_behaviour exLoadedCommon none exHeartbeatInit).1 rfl⟩

/-- The events of a successful agent-to-task handshake, per endpoint
presence. -/
def optAgentEvents : Option String → List RunEvent
  | none => []
  | some endpoint =>
      [.createChannel .agentToTask, .connect endpoint,
       .sentHandle .agentToTask .producer, .retainedHandle .agentToTask .consumer]

/-- The events of a successful task-to-agent handshake (including the
placeholder send), per endpoint presence. -/
def optTaskEvents : Option String → List RunEvent
  | none => []
  | some endpoint =>
      [.createChannel .taskToAgent, .connect endpoint,
       .sentHandle .taskToAgent .consumer, .retainedHandle .taskToAgent .producer,
       .sentMessage .taskToAgent "hiiiii"]

/-- Success of the effectful operations of the agent-to-task handshake. -/
def agentEnvOk (env : RunEnv) : Prop :=
  env.agentChannel = .ok () ∧ env.agentConnect = .ok () ∧ env.agentSendHandle = .ok ()

/-- Success of the effectful operations of the task-to-agent handshake. -/
def taskEnvOk (env : RunEnv) : Prop :=
  env.taskChannel = .ok () ∧ env.taskConnect = .ok () ∧ env.taskSendHandle = .ok ()

lemma agentPhase_ok (c : CommonConfig) (env : RunEnv)
    (h : c.from_agent_to_task_endpoint = none ∨ agentEnvOk env) :
    agentPhase c env = (optAgentEvents c.from_agent_to_task_endpoint, none) := by
  cases hep : c.from_agent_to_task_endpoint with
  | none => simp [agentPhase, hep, optAgentEvents]
  | some endpoint =>
      obtain ⟨hc, hco, hsh⟩ := h.resolve_left (by simp [hep])
      simp [agentPhase, hep, optAgentEvents, handshakeStep, hc, hco, hsh]

lemma taskPhase_ok (c : CommonConfig) (env : RunEnv)
    (h : c.from_task_to_agent_endpoint = none ∨ taskEnvOk env) :
    taskPhase c env = (optTaskEvents c.from_task_to_agent_endpoint, none) := by
  cases hep : c.from_task_to_agent_endpoint with
  | none => simp [taskPhase, hep, optTaskEvents]
  | some endpoint =>
      obtain ⟨hc, hco, hsh⟩ := h.resolve_left (by simp [hep])
      simp [taskPhase, hep, optTaskEvents, handshakeStep, hc, hco, hsh]

lemma agentPhase_connect_fail (c : CommonConfig) (env : RunEnv) (endpoint e : String)
    (hep : c.from_agent_to_task_endpoint = some endpoint)
    (hc : env.agentChannel = .ok ()) (hco : env.agentConnect = .error e) :
    agentPhase c env = ([.createChannel .agentToTask], some e) := by
  simp [agentPhase, hep, handshakeStep, hc, hco]

lemma agentPhase_send_fail (c : CommonConfig) (env : RunEnv) (endpoint e : String)
    (hep : c.from_agent_to_task_endpoint = some endpoint)
    (hc : env.agentChannel = .ok ()) (hco : env.agentConnect = .ok ())
    (hsh : env.agentSendHandle = .error e) :
    agentPhase c env = ([.createChannel .agentToTask, .connect endpoint], some e) := by
  simp [agentPhase, hep, handshakeStep, hc, hco, hsh]

lemma taskPhase_connect_fail (c : CommonConfig) (env : RunEnv) (endpoint e : String)
    (hep : c.from_task_to_agent_endpoint = some endpoint)
    (hc : env.taskChannel = .ok ()) (hco : env.taskConnect = .error e) :
    taskPhase c env = ([.createChannel .taskToAgent], some e) := by
  simp [taskPhase, hep, handshakeStep, hc, hco]

lemma taskPhase_send_fail (c : CommonConfig) (env : RunEnv) (endpoint e : String)
    (hep : c.from_task_to_agent_endpoint = some endpoint)
    (hc : env.taskChannel = .ok ()) (hco : env.taskConnect = .ok ())
    (hsh : env.taskSendHandle = .error e) :
    taskPhase c env = ([.createChannel .taskToAgent, .connect endpoint], some e) := by
  simp [taskPhase, hep, handshakeStep, hc, hco, hsh]

lemma run_of_phases_ok (cfg : Config) (env : RunEnv) (evs1 evs2 : List RunEvent)
    (h1 : agentPhase cfg.common env = (evs1, none))
    (h2 : taskPhase cfg.common env = (evs2, none)) :
    cfg.run env = (telemetryProps cfg.common ++ evs1 ++ evs2 ++
      [cfg.report_event, .invokeRunner cfg.tag], runnerOutcome env) := by
  simp [Config.run, h1, h2]

lemma run_of_agent_fail (cfg : Config) (env : RunEnv) (evs1 : List RunEvent) (e : String)
    (h1 : agentPhase cfg.common env = (evs1, some e)) :
    cfg.run env = (telemetryProps cfg.common ++ evs1, .panic e) := by
  simp [Config.run, h1]

lemma run_of_task_fail (cfg : Config) (env : RunEnv) (evs1 evs2 : List RunEvent) (e : String)
    (h1 : agentPhase cfg.common env = (evs1, none))
    (h2 : taskPhase cfg.common env = (evs2, some e)) :
    cfg.run env = (telemetryProps cfg.common ++ evs1 ++ evs2, .panic e) := by
  simp [Config.run, h1, h2]

lemma telemetryProps_all_setProperty (c : CommonConfig) :
    ∀ ev ∈ telemetryProps c, ∃ name, ev = .setProperty name := by
  intro ev hev
  unfold telemetryProps at hev
  cases hsc : c.machine_identity.scaleset_name with
  | none =>
      rw [hsc] at hev
      simp at hev
      rcases hev with rfl | rfl | rfl | rfl | rfl | rfl <;> exact ⟨_, rfl⟩
  | some sn =>
      rw [hsc] at hev
      simp at hev
      rcases hev with rfl | rfl | rfl | rfl | rfl | rfl | rfl <;> exact ⟨_, rfl⟩

lemma telemetryProps_filter_nil (c : CommonConfig) (p : RunEvent → Bool)
    (hp : ∀ name, p (.setProperty name) = false) :
    (telemetryProps c).filter p = [] := by
  rw [List.filter_eq_nil_iff]
  intro ev hev
  obtain ⟨name, rfl⟩ := telemetryProps_all_setProperty c ev hev
  simp [hp]

lemma telemetryProps_all (c : CommonConfig) (p : RunEvent → Bool)
    (hp : ∀ name, p (.setProperty name) = true) :
    (telemetryProps c).all p = true := by
  rw [List.all_eq_true]
  intro ev hev
  obtain ⟨name, rfl⟩ := telemetryProps_all_setProperty c ev hev
  simp [hp]

lemma optAgentEvents_all_not_sentMessage (o : Option String) :
    ((optAgentEvents o).all fun ev => !ev.isSentMessage) = true := by
  cases o <;> rfl

lemma optAgentEvents_filter_sentMessage (o : Option String) :
    ((optAgentEvents o).filter fun ev => ev.isSentMessage) = [] := by
  cases o <;> rfl

lemma optAgentEvents_filter_taskStart (o : Option String) :
    ((optAgentEvents o).filter fun ev => ev.isTaskStart) = [] := by
  cases o <;> rfl

lemma optTaskEvents_filter_taskStart (o : Option String) :
    ((optTaskEvents o).filter fun ev => ev.isTaskStart) = [] := by
  cases o <;> rfl

/-- Claim C2: if `from_agent_to_task_endpoint` is set in `CommonConfig` and
the connect to the rendezvous endpoint (or the transmission of the channel
handle) fails, `Config::run` terminates as a fatal startup failure carrying
the originating error's description, no `task_start` telemetry event is
emitted, and no runner is invoked. -/
theorem agent_handshake_failure_is_fatal (cfg : Config) (env : RunEnv) (ep e : String)
    (hep : cfg.common.from_agent_to_task_endpoint = some ep)
    (hch : env.agentChannel = .ok ())
    (hfail : env.agentConnect = .error e ∨
      (env.agentConnect = .ok () ∧ env.agentSendHandle = .error e)) :
    (cfg.run env).2 = .panic e ∧
    ((cfg.run env).1.all fun ev => !ev.isTaskStart && !ev.isInvokeRunner) = true := by
  have hrun : ∃ evs, cfg.run env = (telemetryProps cfg.common ++ evs, .panic e) ∧
      (evs.all fun ev => !ev.isTaskStart && !ev.isInvokeRunner) = true := by
    rcases hfail with hco | ⟨hco, hsh⟩
    · exact ⟨_, run_of_agent_fail cfg env _ e
        (agentPhase_connect_fail cfg.common env ep e hep hch hco), rfl⟩
    · exact ⟨_, run_of_agent_fail cfg env _ e
        (agentPhase_send_fail cfg.common env ep e hep hch hco hsh), rfl⟩
  obtain ⟨evs, hrn, hall⟩ := hrun
  rw [hrn]
  refine ⟨rfl, ?_⟩
  rw [List.all_append]
  rw [telemetryProps_all cfg.common _ (fun name => rfl), hall]
  rfl

/-- A common envelope with both rendezvous endpoints configured. -/
def exRunCommon : CommonConfig :=
  { exLoadedCommon with
    from_agent_to_task_endpoint := some "ep-a",
    from_task_to_agent_endpoint := some "ep-t" }

def exRunConfig : Config := .GenericMerge { common := exRunCommon }

/-- An environment in which every effectful operation succeeds. -/
def exEnvAllOk : RunEnv :=
  { agentChannel := .ok (), agentConnect := .ok (), agentSendHandle := .ok (),
    taskChannel := .ok (), taskConnect := .ok (), taskSendHandle := .ok (),
    placeholderSend := .ok (), runnerResult := .ok () }

def exEnvAgentConnectFail : RunEnv :=
  { exEnvAllOk with agentConnect := .error "connection refused" }

/-- Witness for claim C2 at a concrete configuration and environment: an
unreachable agent-to-task rendezvous endpoint panics with no start event and
no runner invocation. -/
theorem agent_handshake_failure_is_fatal_witness :
    (exRunConfig.run exEnvAgentConnectFail).2 = .panic "connection refused" ∧
    ((exRunConfig.run exEnvAgentConnectFail).1.all
      fun ev => !ev.isTaskStart && !ev.isInvokeRunner) = true :=
  agent_handshake_failure_is_fatal exRunConfig exEnvAgentConnectFail "ep-a"
    "connection refused" rfl rfl (Or.inl rfl)

/-- Claim C3: if `from_task_to_agent_endpoint` is set and the task-to-agent
handshake (connect plus handle transmission) succeeds, `Config::run` sends
exactly one fixed placeholder message (`"hiiiii"`) on the newly created
task-to-agent channel, immediately after the handshake and before the
`task_start` event and the runner invocation, and no other message is sent on
that channel by this component. -/
theorem placeholder_message_sent_once (cfg : Config) (env : RunEnv) (ep : String)
    (hep : cfg.common.from_task_to_agent_endpoint = some ep)
    (htask : taskEnvOk env)
    (hagent : cfg.common.from_agent_to_task_endpoint = none ∨ agentEnvOk env) :
    ∃ pre, (cfg.run env).1 = pre ++
        [.sentHandle .taskToAgent .consumer, .retainedHandle .taskToAgent .producer,
         .sentMessage .taskToAgent "hiiiii", .taskStart cfg.eventType cfg.toolName,
         .invokeRunner cfg.tag] ∧
      (pre.all fun ev => !ev.isSentMessage) = true ∧
      ((cfg.run env).1.filter fun ev => ev.isSentMessage) =
        [.sentMessage .taskToAgent "hiiiii"] := by
  have h1 := agentPhase_ok cfg.common env hagent
  have h2 := taskPhase_ok cfg.common env (Or.inr htask)
  rw [hep] at h2
  have hrun := run_of_phases_ok cfg env _ _ h1 h2
  refine ⟨telemetryProps cfg.common ++
    optAgentEvents cfg.common.from_agent_to_task_endpoint ++
    [.createChannel .taskToAgent, .connect ep], ?_, ?_, ?_⟩
  · rw [hrun]
    simp [optTaskEvents, Config.report_event]
  · rw [List.all_append, List.all_append]
    rw [telemetryProps_all cfg.common _ (fun name => rfl),
      optAgentEvents_all_not_sentMessage]
    rfl
  · rw [hrun]
    simp only [List.filter_append]
    rw [telemetryProps_filter_nil cfg.common _ (fun name => rfl),
      optAgentEvents_filter_sentMessage]
    simp [optTaskEvents, Config.report_event, RunEvent.isSentMessage]

/-- Witness for claim C3 at a concrete configuration with both endpoints set
and a fully successful environment. -/
theorem placeholder_message_sent_once_witness :
    ((exRunConfig.run exEnvAllOk).1.filter fun ev => ev.isSentMessage) =
      [.sentMessage .taskToAgent "hiiiii"] := by
  obtain ⟨pre, h1, h2, h3⟩ := placeholder_message_sent_once exRunConfig exEnvAllOk
    "ep-t" rfl ⟨rfl, rfl, rfl⟩ (Or.inr ⟨rfl, rfl, rfl⟩)
  exact h3

/-- Claim C4: in the agent-to-task handshake `Config::run` creates a fresh
unidirectional channel, sends the producer (sender) handle to the rendezvous
endpoint and retains the consumer (receiver) handle; in the task-to-agent
handshake it sends the consumer (receiver) handle and retains the producer
(sender) handle locally. -/
theorem handshake_handle_directions (cfg : Config) (env : RunEnv) :
    (∀ ep, cfg.common.from_agent_to_task_endpoint = some ep → agentEnvOk env →
      ∃ pre post, (cfg.run env).1 = pre ++
        [.createChannel .agentToTask, .connect ep,
         .sentHandle .agentToTask .producer, .retainedHandle .agentToTask .consumer] ++
        post) ∧
    (∀ ep, cfg.common.from_task_to_agent_endpoint = some ep → taskEnvOk env →
      (cfg.common.from_agent_to_task_endpoint = none ∨ agentEnvOk env) →
      ∃ pre post, (cfg.run env).1 = pre ++
        [.createChannel .taskToAgent, .connect ep,
         .sentHandle .taskToAgent .consumer, .retainedHandle .taskToAgent .producer] ++
        post) := by
  constructor
  · intro ep hep hok
    have h1 := agentPhase_ok cfg.common env (Or.inr hok)
    rw [hep] at h1
    rcases h2 : taskPhase cfg.common env with ⟨evs2, r2⟩
    cases r2 with
    | some e =>
        refine ⟨telemetryProps cfg.common, evs2, ?_⟩
        rw [run_of_task_fail cfg env _ _ e h1 h2]
        simp [optAgentEvents]
    | none =>
        refine ⟨telemetryProps cfg.common,
          evs2 ++ [cfg.report_event, .invokeRunner cfg.tag], ?_⟩
        rw [run_of_phases_ok cfg env _ _ h1 h2]
        simp [optAgentEvents]
  · intro ep hep htask hagent
    have h1 := agentPhase_ok cfg.common env hagent
    have h2 := taskPhase_ok cfg.common env (Or.inr htask)
    rw [hep] at h2
    refine ⟨telemetryProps cfg.common ++
      optAgentEvents cfg.common.from_agent_to_task_endpoint,
      [.sentMessage .taskToAgent "hiiiii", cfg.report_event,
       .invokeRunner cfg.tag], ?_⟩
    rw [run_of_phases_ok cfg env _ _ h1 h2]
    simp [optTaskEvents]

/-- Witness for claim C4 at a concrete configuration with both endpoints set
and a fully successful environment. -/
theorem handshake_handle_directions_witness :
    (∃ pre post, (exRunConfig.run exEnvAllOk).1 = pre ++
      [.createChannel .agentToTask, .connect "ep-a",
       .sentHandle .agentToTask .producer, .retainedHandle .agentToTask .consumer] ++
      post) ∧
    (∃ pre post, (exRunConfig.run exEnvAllOk).1 = pre ++
      [.createChannel .taskToAgent, .connect "ep-t",
       .sentHandle .taskToAgent .consumer, .retainedHandle .taskToAgent .producer] ++
      post) :=
  ⟨(handshake_handle_directions exRunConfig exEnvAllOk).1 "ep-a" rfl ⟨rfl, rfl, rfl⟩,
   (handshake_handle_directions exRunConfig exEnvAllOk).2 "ep-t" rfl ⟨rfl, rfl, rfl⟩
     (Or.inr ⟨rfl, rfl, rfl⟩)⟩

/-- Claim C5: when both rendezvous endpoints are configured the two
handshakes are established strictly sequentially, agent-to-task first and
task-to-agent second; if the task-to-agent direction fails after the
agent-to-task direction succeeded — either at the connect or at the handle
transmission — the first channel is not rolled back (its handshake events
remain in the trace) and startup fails; if neither endpoint is set, handshake
establishment performs no action and dispatch proceeds directly. -/
theorem handshake_sequencing (cfg : Config) (env : RunEnv) :
    (∀ ep1 ep2, cfg.common.from_agent_to_task_endpoint = some ep1 →
      cfg.common.from_task_to_agent_endpoint = some ep2 →
      agentEnvOk env → taskEnvOk env →
      cfg.run env = (telemetryProps cfg.common ++ optAgentEvents (some ep1) ++
        optTaskEvents (some ep2) ++ [cfg.report_event, .invokeRunner cfg.tag],
        runnerOutcome env)) ∧
    (∀ ep1 ep2 e, cfg.common.from_agent_to_task_endpoint = some ep1 →
      cfg.common.from_task_to_agent_endpoint = some ep2 →
      agentEnvOk env → env.taskChannel = .ok () → env.taskConnect = .error e →
      cfg.run env = (telemetryProps cfg.common ++ optAgentEvents (some ep1) ++
        [.createChannel .taskToAgent], .panic e)) ∧
    (∀ ep1 ep2 e, cfg.common.from_agent_to_task_endpoint = some ep1 →
      cfg.common.from_task_to_agent_endpoint = some ep2 →
      agentEnvOk env → env.taskChannel = .ok () → env.taskConnect = .ok () →
      env.taskSendHandle = .error e →
      cfg.run env = (telemetryProps cfg.common ++ optAgentEvents (some ep1) ++
        [.createChannel .taskToAgent, .connect ep2], .panic e)) ∧
    (cfg.common.from_agent_to_task_endpoint = none →
      cfg.common.from_task_to_agent_endpoint = none →
      cfg.run env = (telemetryProps cfg.common ++
        [cfg.report_event, .invokeRunner cfg.tag], runnerOutcome env) ∧
      ((cfg.run env).1.all fun ev => !ev.isHandshakeEvent) = true) := by
  refine ⟨?_, ?_, ?_, ?_⟩
  · intro ep1 ep2 hep1 hep2 hA hT
    have h1 := agentPhase_ok cfg.common env (Or.inr hA)
    have h2 := taskPhase_ok cfg.common env (Or.inr hT)
    rw [hep1] at h1
    rw [hep2] at h2
    exact run_of_phases_ok cfg env _ _ h1 h2
  · intro ep1 ep2 e hep1 hep2 hA hc hco
    have h1 := agentPhase_ok cfg.common env (Or.inr hA)
    rw [hep1] at h1
    exact run_of_task_fail cfg env _ _ e h1
      (taskPhase_connect_fail cfg.common env ep2 e hep2 hc hco)
  · intro ep1 ep2 e hep1 hep2 hA hc hco hsh
    have h1 := agentPhase_ok cfg.common env (Or.inr hA)
    rw [hep1] at h1
    exact run_of_task_fail cfg env _ _ e h1
      (taskPhase_send_fail cfg.common env ep2 e hep2 hc hco hsh)
  · intro hA hT
    have h1 := agentPhase_ok cfg.common env (Or.inl hA)
    have h2 := taskPhase_ok cfg.common env (Or.inl hT)
    rw [hA] at h1
    rw [hT] at h2
    have hrun := run_of_phases_ok cfg env _ _ h1 h2
    simp only [optAgentEvents, optTaskEvents, List.append_nil] at hrun
    refine ⟨hrun, ?_⟩
    rw [hrun]
    simp only [List.all_append]
    rw [telemetryProps_all cfg.common _ (fun name => rfl)]
    rfl

def exEnvTaskConnectFail : RunEnv :=
  { exEnvAllOk with taskConnect := .error "task endpoint closed" }

def exEnvTaskSendFail : RunEnv :=
  { exEnvAllOk with taskSendHandle := .error "handle send failed" }

/-- Witness for claim C5 at concrete configurations and environments: both
directions in order, the partial-handshake failure at the connect and at the
handle transmission, and the no-endpoint no-op. -/
theorem handshake_sequencing_witness :
    exRunConfig.run exEnvAllOk = (telemetryProps exRunConfig.common ++
      optAgentEvents (some "ep-a") ++ optTaskEvents (some "ep-t") ++
      [exRunConfig.report_event, .invokeRunner exRunConfig.tag],
      runnerOutcome exEnvAllOk) ∧
    exRunConfig.run exEnvTaskConnectFail = (telemetryProps exRunConfig.common ++
      optAgentEvents (some "ep-a") ++ [.createChannel .taskToAgent],
      .panic "task endpoint closed") ∧
    exRunConfig.run exEnvTaskSendFail = (telemetryProps exRunConfig.common ++
      optAgentEvents (some "ep-a") ++ [.createChannel .taskToAgent, .connect "ep-t"],
      .panic "handle send failed") ∧
    exLoadedConfig.run exEnvAllOk = (telemetryProps exLoadedConfig.common ++
      [exLoadedConfig.report_event, .invokeRunner exLoadedConfig.tag],
      runnerOutcome exEnvAllOk) :=
  ⟨(handshake_sequencing exRunConfig exEnvAllOk).1 "ep-a" "ep-t" rfl rfl
      ⟨rfl, rfl, rfl⟩ ⟨rfl, rfl, rfl⟩,
   (handshake_sequencing exRunConfig exEnvTaskConnectFail).2.1 "ep-a" "ep-t"
      "task endpoint closed" rfl rfl ⟨rfl, rfl, rfl⟩ rfl rfl,
   (handshake_sequencing exRunConfig exEnvTaskSendFail).2.2.1 "ep-a" "ep-t"
      "handle send failed" rfl rfl ⟨rfl, rfl, rfl⟩ rfl rfl rfl,
   ((handshake_sequencing exLoadedConfig exEnvAllOk).2.2.2 rfl rfl).1⟩

/-- Claim C10: the result of sending the fixed placeholder message on the
task-to-agent channel is discarded: with `from_task_to_agent_endpoint` set, a
failure of the placeholder send (after a successful connect and handle
transmission) does not change the result of `Config::run` at all, unlike a
failed connect or failed handle transmission, which is fatal. -/
theorem placeholder_send_failure_not_fatal (cfg : Config) (env : RunEnv) (ep : String)
    (hep : cfg.common.from_task_to_agent_endpoint = some ep)
    (hreach : cfg.common.from_agent_to_task_endpoint = none ∨ agentEnvOk env) :
    (∀ x, cfg.run { env with placeholderSend := x } = cfg.run env) ∧
    (∀ e, env.taskChannel = .ok () → env.taskConnect = .error e →
      (cfg.run env).2 = .panic e) ∧
    (∀ e, env.taskChannel = .ok () → env.taskConnect = .ok () →
      env.taskSendHandle = .error e → (cfg.run env).2 = .panic e) := by
  refine ⟨fun x => rfl, ?_, ?_⟩
  · intro e hc hco
    have h1 := agentPhase_ok cfg.common env hreach
    rw [run_of_task_fail cfg env _ _ e h1
      (taskPhase_connect_fail cfg.common env ep e hep hc hco)]
  · intro e hc hco hsh
    have h1 := agentPhase_ok cfg.common env hreach
    rw [run_of_task_fail cfg env _ _ e h1
      (taskPhase_send_fail cfg.common env ep e hep hc hco hsh)]

def exEnvPlaceholderFail : RunEnv :=
  { exEnvAllOk with placeholderSend := .error "send failed" }

/-- Witness for claim C10: a failed placeholder send leaves the run result
unchanged, while a failed task-to-agent connect panics. -/
theorem placeholder_send_failure_not_fatal_witness :
    exRunConfig.run exEnvPlaceholderFail = exRunConfig.run exEnvAllOk ∧
    (exRunConfig.run exEnvTaskConnectFail).2 = .panic "task endpoint closed" :=
  ⟨(placeholder_send_failure_not_fatal exRunConfig exEnvAllOk "ep-t" rfl
      (Or.inr ⟨rfl, rfl, rfl⟩)).1 (.error "send failed"),
   (placeholder_send_failure_not_fatal exRunConfig exEnvTaskConnectFail "ep-t" rfl
      (Or.inr ⟨rfl, rfl, rfl⟩)).2.1 "task endpoint closed" rfl rfl⟩

/-- Counterexample for claim C9 as stated: `LibFuzzerDotnetFuzz` and
`LibFuzzerFuzz` are distinct variants of the union, yet `Config::report_event`
gives both the same task-start event-type string `"libfuzzer_fuzz"`, so the
event-type string is not a distinct string per variant. -/
theorem event_type_not_distinct_per_variant :
    Config.tag (.LibFuzzerDotnetFuzz { common := exLoadedCommon }) ≠
      Config.tag (.LibFuzzerFuzz { common := exLoadedCommon }) ∧
    Config.eventType (.LibFuzzerDotnetFuzz { common := exLoadedCommon }) =
      Config.eventType (.LibFuzzerFuzz { common := exLoadedCommon }) ∧
    Config.eventType (.LibFuzzerDotnetFuzz { common := exLoadedCommon }) =
      "libfuzzer_fuzz" :=
  ⟨by decide, rfl, rfl⟩

/-- Claim C9, amended: `Config::run` emits exactly one task-start telemetry
event whose event-type string is determined by the configuration's work kind;
the strings are distinct per variant except that `LibFuzzerDotnetFuzz` and
`LibFuzzerFuzz` both emit `"libfuzzer_fuzz"`; exactly the generic analysis
and generic generator variants attach their external tool path
(`analyzer_exe` / `generator_exe`) as metadata, every other variant attaches
none; in particular a `GenericAnalysis` configuration yields a start event of
type `generic_analysis` carrying the `analyzer_exe` value as tool name. -/
theorem task_start_event_kind_and_tool_metadata (cfg : Config) (env : RunEnv)
    (hagent : cfg.common.from_agent_to_task_endpoint = none ∨ agentEnvOk env)
    (htask : cfg.common.from_task_to_agent_endpoint = none ∨ taskEnvOk env) :
    ((cfg.run env).1.filter fun ev => ev.isTaskStart) =
      [.taskStart cfg.eventType cfg.toolName] ∧
    (∀ c1 c2 : Config, c1.eventType = c2.eventType →
      c1.tag = c2.tag ∨
        (c1.eventType = "libfuzzer_fuzz" ∧ c2.eventType = "libfuzzer_fuzz")) ∧
    (∀ ca : GenericAnalysisConfig,
      (Config.GenericAnalysis ca).eventType = "generic_analysis" ∧
      (Config.GenericAnalysis ca).toolName = some ca.analyzer_exe) ∧
    (∀ cg : GenericGeneratorConfig,
      (Config.GenericGenerator cg).eventType = "generic_generator" ∧
      (Config.GenericGenerator cg).toolName = some cg.generator_exe) ∧
    (∀ c : Config, c.toolName = none ∨
      (∃ ca, c = .GenericAnalysis ca ∧ c.toolName = some ca.analyzer_exe) ∨
      (∃ cg, c = .GenericGenerator cg ∧ c.toolName = some cg.generator_exe)) := by
  refine ⟨?_, ?_, fun ca => ⟨rfl, rfl⟩, fun cg => ⟨rfl, rfl⟩, ?_⟩
  · have h1 := agentPhase_ok cfg.common env hagent
    have h2 := taskPhase_ok cfg.common env htask
    rw [run_of_phases_ok cfg env _ _ h1 h2]
    simp only [List.filter_append]
    rw [telemetryProps_filter_nil cfg.common _ (fun name => rfl),
      optAgentEvents_filter_taskStart, optTaskEvents_filter_taskStart]
    simp [Config.report_event, RunEvent.isTaskStart, List.filter]
  · intro c1 c2 h
    cases c1 <;> cases c2 <;>
      simp only [Config.eventType, Config.tag] at h ⊢ <;>
      trivial
  · intro c
    cases c <;>
      first
        | (left; rfl)
        | (right; left; exact ⟨_, rfl, rfl⟩)
        | (right; right; exact ⟨_, rfl, rfl⟩)

/-- The `GenericAnalysis` configuration of the spec's end-to-end example. -/
def exAnalysisConfig : Config :=
  .GenericAnalysis { common := exLoadedCommon, analyzer_exe := "tool.exe" }

/-- Witness for amended claim C9 at the spec's end-to-end example: exactly
one start event, of type `generic_analysis`, carrying tool name `tool.exe`. -/
theorem task_start_event_kind_and_tool_metadata_witness :
    ((exAnalysisConfig.run exEnvAllOk).1.filter fun ev => ev.isTaskStart) =
      [.taskStart "generic_analysis" (some "tool.exe")] :=
  (task_start_event_kind_and_tool_metadata exAnalysisConfig exEnvAllOk
    (Or.inl rfl) (Or.inl rfl)).1
